import Mathlib

/-!
# Verification of the PyTorchXAI guided-backpropagation core

A shallow embedding of `src/pytorchxai/xai/gradient_guided_backprop.py` and
`src/pytorchxai/xai/gradient_visualizations.py`, together with theorems about
the guided-backprop hook mechanism, the activation-recorder stack discipline,
the one-hot target construction, and the normalizing post-processing.

Tensors are modelled as flat lists of rationals; the leading batch dimension
of size 1 that the Python code carries around is elided.  Multi-channel
gradient arrays (shape `C×H×W` in numpy) are modelled as lists of channels,
each channel a flat list of pixels.
-/

namespace PyTorchXAI

/-- A tensor, flattened to a list of exact rational values. -/
abbrev Tensor := List ℚ

/-- The Python exceptions the embedded code can raise.
`indexError` stands for Python's `IndexError` (out-of-range list or tensor
index, which is what the spec calls `EmptyStackError` when it comes from
popping the empty activation stack and `OutOfRangeError` when it comes from
the one-hot write); `typeError` for `TypeError` (calling a method with the
wrong number of positional arguments); `attributeError` for `AttributeError`
(attribute access on `None`, the spec's `NoGradientCapturedError`). -/
inductive PyError where
  | indexError
  | typeError
  | attributeError
deriving Repr, DecidableEq

/-- All scalar entries of a channels-by-pixels array, in order. -/
def elems (a : List (List ℚ)) : List ℚ := a.flatten

/-- Modelled from the spec: `normalize_gradient` lives in the module
`pytorchxai.xai.utils`, which is not part of the sources; §4.4 describes it as
a "linear rescale so the minimum maps to 0 and the maximum maps to 1; if
min == max (degenerate constant array), define output as all-zeros to avoid
division by zero". An array with no elements is returned unchanged. -/
def normalize_gradient (a : List (List ℚ)) : List (List ℚ) :=
  match (elems a).min?, (elems a).max? with
  | some lo, some hi =>
    if hi = lo then a.map (List.map fun _ => 0)
    else a.map (List.map fun v => (v - lo) / (hi - lo))
  | _, _ => a

/-- Modelled from the spec: `convert_to_grayscale` lives in the missing module
`pytorchxai.xai.utils`; §4.4 describes it as collapsing the channel dimension,
"e.g. take the element-wise maximum absolute value across channels". -/
def convert_to_grayscale (a : List (List ℚ)) : List ℚ :=
  match a with
  | [] => []
  | c :: cs => cs.foldl (fun acc ch => List.zipWith (fun x y => max x |y|) acc ch)
      (c.map fun y => |y|)

/-- Modelled from the spec: `get_positive_negative_saliency` lives in the
missing module `pytorchxai.xai.utils`; §4.4: "positive map = max(gradient, 0);
negative map = max(-gradient, 0)". -/
def get_positive_negative_saliency (g : List (List ℚ)) :
    List (List ℚ) × List (List ℚ) :=
  (g.map (List.map fun v => max v 0), g.map (List.map fun v => max (-v) 0))

/-- `self.forward_relu_outputs.append(ten_out)`: the forward hook pushes the
rectifying unit's output onto the end of the recorder stack. -/
def relu_forward_hook_function (stack : List Tensor) (ten_out : Tensor) :
    List Tensor :=
  stack ++ [ten_out]

/-- `corresponding_forward_output[corresponding_forward_output > 0] = 1`:
strictly positive entries become 1, all other entries are left as they are
(for a recorded ReLU output those entries are exactly 0). -/
def mark_positive (t : Tensor) : Tensor :=
  t.map fun v => if 0 < v then 1 else v

/-- `torch.clamp(grad_in[0], min=0.0)`. -/
def clamp_min0 (t : Tensor) : Tensor :=
  t.map fun g => max g 0

/-- The backward hook installed on every rectifying unit: read the most
recently recorded forward output (`self.forward_relu_outputs[-1]`, raising
`IndexError` on an empty stack), turn it into a presence mask, multiply it
element-wise with the clamped incoming gradient, and pop the stack
(`del self.forward_relu_outputs[-1]`).  Returns the replacement gradient and
the remaining stack. -/
def relu_backward_hook_function (stack : List Tensor) (grad_in : Tensor) :
    Except PyError (Tensor × List Tensor) :=
  match stack.getLast? with
  | none => .error .indexError
  | some corresponding_forward_output =>
    let modified_grad_out :=
      List.zipWith (fun m g => m * g)
        (mark_positive corresponding_forward_output) (clamp_min0 grad_in)
    .ok (modified_grad_out, stack.dropLast)

/-- `torch.FloatTensor(1, n).zero_()` with the batch row elided: a zero vector
of length `n`. -/
def zeros (n : Nat) : Tensor := List.replicate n 0

/-- `v[i] = x` under PyTorch/Python integer indexing semantics: a negative
index wraps by adding the length; an index outside `[-len, len)` raises
`IndexError`. -/
def set_index (v : Tensor) (i : Int) (x : ℚ) : Except PyError Tensor :=
  if 0 ≤ i ∧ i < (v.length : Int) then .ok (v.set i.toNat x)
  else if -(v.length : Int) ≤ i ∧ i < 0 then
    .ok (v.set ((v.length : Int) + i).toNat x)
  else .error .indexError

/-- `one_hot_output = torch.FloatTensor(1, C).zero_();
one_hot_output[0][target_class] = 1`. -/
def one_hot_output (num_classes : Nat) (target_class : Int) :
    Except PyError Tensor :=
  set_index (zeros num_classes) target_class 1

/-- `gradients_as_arr = self.gradients.data.numpy()[0]`: reading the captured
gradient slot.  When the first-layer observer never fired the slot still holds
`None` and the attribute access raises `AttributeError`; otherwise the tensor
is returned (the `[0]` batch-stripping is elided with the batch dimension). -/
def read_gradients (slot : Option Tensor) : Except PyError Tensor :=
  match slot with
  | none => .error .attributeError
  | some g => .ok g

/-- One module of `model.features`: either a rectifying non-linearity
(`torch.nn.ReLU`) or another differentiable elementwise operation, modelled as
an affine map `v ↦ w*v + b`. -/
inductive Layer where
  | relu
  | affine (w b : ℚ)
deriving Repr, DecidableEq

/-- Forward evaluation of a single layer. -/
def layer_forward (l : Layer) (x : Tensor) : Tensor :=
  match l with
  | .relu => x.map fun v => max v 0
  | .affine w b => x.map fun v => w * v + b

/-- The gradient autograd hands a layer's backward hook as `grad_in[0]`: the
derivative of the loss with respect to the layer's input, given the layer's
forward input and the gradient with respect to its output. -/
def layer_grad_in (l : Layer) (x grad_out : Tensor) : Tensor :=
  match l with
  | .relu => List.zipWith (fun xi gi => if 0 < xi then gi else 0) x grad_out
  | .affine w _ => grad_out.map fun gi => w * gi

/-- The forward pass through `model.features` with the registered forward
hooks firing: every ReLU output is pushed onto the recorder stack.  Returns
the final stack and the feature output. -/
def features_forward : List Layer → Tensor → List Tensor → List Tensor × Tensor
  | [], x, stack => (stack, x)
  | .relu :: ls, x, stack =>
    let y := layer_forward .relu x
    features_forward ls y (relu_forward_hook_function stack y)
  | .affine w b :: ls, x, stack =>
    features_forward ls (layer_forward (.affine w b) x) stack

/-- The ReLU outputs recorded during one forward pass, in push order. -/
def relu_pushes : List Layer → Tensor → List Tensor
  | [], _ => []
  | .relu :: ls, x =>
    let y := layer_forward .relu x
    y :: relu_pushes ls y
  | .affine w b :: ls, x => relu_pushes ls (layer_forward (.affine w b) x)

/-- The feature output of one forward pass, without hook effects. -/
def features_out : List Layer → Tensor → Tensor
  | [], x => x
  | l :: ls, x => features_out ls (layer_forward l x)

/-- The backward pass through `model.features` in reverse layer order with the
registered backward hooks firing: at every ReLU the backward hook replaces the
autograd gradient and pops the recorder stack.  Returns the final stack and
either the gradient with respect to the first layer's input or the exception
raised by a hook. -/
def features_backward :
    List Layer → Tensor → Tensor → List Tensor → List Tensor × Except PyError Tensor
  | [], _, grad_out, stack => (stack, .ok grad_out)
  | .relu :: ls, x, grad_out, stack =>
    let y := layer_forward .relu x
    match features_backward ls y grad_out stack with
    | (stack1, .error e) => (stack1, .error e)
    | (stack1, .ok grad_after) =>
      match relu_backward_hook_function stack1 (layer_grad_in .relu x grad_after) with
      | .error e => (stack1, .error e)
      | .ok (grad_new, stack2) => (stack2, .ok grad_new)
  | .affine w b :: ls, x, grad_out, stack =>
    let y := layer_forward (.affine w b) x
    match features_backward ls y grad_out stack with
    | (stack1, .error e) => (stack1, .error e)
    | (stack1, .ok grad_after) =>
      (stack1, .ok (layer_grad_in (.affine w b) x grad_after))

/-- Dot product of two equally long vectors. -/
def dot (a b : List ℚ) : ℚ := (List.zipWith (fun x y => x * y) a b).sum

/-- The classifier head mapping the feature vector to class scores, one row of
weights per class. -/
def classifier_forward (w : List (List ℚ)) (feats : Tensor) : Tensor :=
  w.map fun row => dot row feats

/-- Backward pass through the classifier head: the gradient with respect to
the feature vector, `Wᵀ · g`, at feature dimension `dim`. -/
def classifier_grad_in (w : List (List ℚ)) (g : Tensor) (dim : Nat) : Tensor :=
  (List.range dim).map fun j =>
    (List.zipWith (fun gi row => gi * row.getD j 0) g w).sum

/-- The borrowed Network: an ordered sequence of feature layers, a linear
classifier head, and the train/eval mode flag (`model.training`). -/
structure Model where
  features : List Layer
  classifier : List (List ℚ)
  training : Bool
deriving Repr, DecidableEq

/-- `model_output.size()[-1]`: the number of classes the model scores. -/
def Model.num_classes (m : Model) : Nat := m.classifier.length

/-- The controller's mutable state: the captured first-layer gradient slot
(`self.gradients`, initially `None`) and the activation-recorder stack
(`self.forward_relu_outputs`, initially `[]`). -/
structure GuidedBackpropState where
  gradients : Option Tensor
  forward_relu_outputs : List Tensor
deriving Repr, DecidableEq

/-- A constructed `GuidedBackprop` controller: the (hooked) model and the
mutable state. -/
structure GuidedBackprop where
  model : Model
  state : GuidedBackpropState
deriving Repr, DecidableEq

/-- `GuidedBackprop.__init__`: stores the model, initializes `gradients` to
`None` and `forward_relu_outputs` to `[]`, puts the model in evaluation mode
(`self.model.eval()`), registers the ReLU hooks (`update_relus`, whose effect
is baked into `features_forward`/`features_backward`), and registers the
first-layer hook (`hook_layers`, which evaluates
`list(self.model.features._modules.items())[0]` and therefore raises
`IndexError` on a model with an empty feature sequence). -/
def GuidedBackprop.init (m : Model) : Except PyError GuidedBackprop :=
  match m.features with
  | [] => .error .indexError
  | _ :: _ => .ok ⟨{ m with training := false }, ⟨none, []⟩⟩

/-- `generate_gradients(input_image, target_class)`: forward pass (forward
hooks push ReLU outputs), `zero_grad` (clears parameter gradients — no effect
on the modelled state), one-hot target construction (which can raise
`IndexError`), backward pass (backward hooks rewrite gradients and pop the
stack; the first-layer hook stores `grad_in[0]` into `self.gradients`), and
finally the read of `self.gradients`.  Returns the updated controller and the
raw gradient array or the exception raised. -/
def generate_gradients (gb : GuidedBackprop) (input_image : Tensor)
    (target_class : Int) : GuidedBackprop × Except PyError Tensor :=
  let (stack1, feats) :=
    features_forward gb.model.features input_image gb.state.forward_relu_outputs
  let model_output := classifier_forward gb.model.classifier feats
  let gb1 : GuidedBackprop :=
    { gb with state := { gb.state with forward_relu_outputs := stack1 } }
  match one_hot_output model_output.length target_class with
  | .error e => (gb1, .error e)
  | .ok one_hot =>
    let seed := classifier_grad_in gb.model.classifier one_hot feats.length
    match features_backward gb.model.features input_image seed stack1 with
    | (stack2, .error e) =>
      ({ gb1 with state := { gb1.state with forward_relu_outputs := stack2 } },
       .error e)
    | (stack2, .ok grad_first) =>
      let gb2 : GuidedBackprop :=
        { gb1 with state := { gradients := some grad_first,
                              forward_relu_outputs := stack2 } }
      (gb2, read_gradients gb2.state.gradients)

/-- The raw flat gradient viewed as `nchan` channels (the numpy reshape; the
shape metadata itself is elided by the flat tensor model). -/
def to_channels (nchan : Nat) (t : Tensor) : List (List ℚ) :=
  (List.range nchan).map fun i =>
    (t.drop (i * (t.length / nchan))).take (t.length / nchan)

/-- `GuidedBackprop.generate(input_image, target_class)`: run
`generate_gradients`, then normalize the raw gradient into the four named
output arrays.  The result mapping is modelled as an association list in
insertion order. -/
def GuidedBackprop.generate (gb : GuidedBackprop) (nchan : Nat)
    (input_image : Tensor) (target_class : Int) :
    GuidedBackprop × Except PyError (List (String × List (List ℚ))) :=
  match generate_gradients gb input_image target_class with
  | (gb1, .error e) => (gb1, .error e)
  | (gb1, .ok raw) =>
    let guided_grads := to_channels nchan raw
    let color_guided_grads := normalize_gradient guided_grads
    let grayscale_guided_grads :=
      normalize_gradient [convert_to_grayscale guided_grads]
    let ps := get_positive_negative_saliency guided_grads
    let pos_sal_grads := normalize_gradient ps.1
    let neg_sal_grads := normalize_gradient ps.2
    (gb1,
     .ok [("color_guided_grads", color_guided_grads),
          ("grayscale_guided_grads", grayscale_guided_grads),
          ("positive_saliency_maps", pos_sal_grads),
          ("negative_saliency_maps", neg_sal_grads)])

/-- One visualization technique as the aggregator sees it: the number of
positional parameters its `generate` method declares besides `self`, and the
method body (given the three arguments the aggregator supplies). -/
structure Technique where
  declared_argc : Nat
  body : Tensor → Tensor → Int → Except PyError (List (String × List (List ℚ)))

/-- Python method-call semantics: supplying a number of positional arguments
different from the method's declared parameter count raises `TypeError`
before the body runs. -/
def call_technique (v : Technique) (supplied_argc : Nat)
    (orig_image input_image : Tensor) (target : Int) :
    Except PyError (List (String × List (List ℚ))) :=
  if supplied_argc = v.declared_argc then v.body orig_image input_image target
  else .error .typeError

/-- `GuidedBackprop` as an entry of `self.visualizations`:
`def generate(self, input_image, target_class)` declares two parameters
besides `self`. -/
def guidedbackprop_technique (gb : GuidedBackprop) (nchan : Nat) : Technique :=
  { declared_argc := 2,
    body := fun _orig input target => (GuidedBackprop.generate gb nchan input target).2 }

/-- The aggregator loop
`for v in self.visualizations: results.update(v.generate(orig_image, input_image, target))`:
each technique is called with three positional arguments and the returned
mappings are merged in order; an exception aborts the loop. -/
def aggregate : List Technique → Tensor → Tensor → Int →
    Except PyError (List (String × List (List ℚ)))
  | [], _, _, _ => .ok []
  | v :: vs, orig_image, input_image, target =>
    match call_technique v 3 orig_image input_image target with
    | .error e => .error e
    | .ok r =>
      match aggregate vs orig_image input_image target with
      | .error e => .error e
      | .ok rest => .ok (r ++ rest)

/-- `GradientVisualization.generate(orig_image, input_image, target)`.
`self.visualizations` puts `GuidedBackprop(model)` first; the sibling
techniques (`VanillaBackprop`, `ScoreCam`, `GradCam`) come from modules that
are not part of the sources, so they are abstracted as an arbitrary suffix of
further techniques — the loop calls `GuidedBackprop` before any of them. -/
def GradientVisualization.generate (gb : GuidedBackprop) (nchan : Nat)
    (siblings : List Technique) (orig_image input_image : Tensor)
    (target : Int) : Except PyError (List (String × List (List ℚ))) :=
  aggregate (guidedbackprop_technique gb nchan :: siblings)
    orig_image input_image target

/-- A concrete two-layer model used by the witnesses: one scaling layer with
weight −1, one ReLU, and an identity classifier over two classes. -/
def exampleModel : Model :=
  { features := [.affine (-1) 0, .relu],
    classifier := [[1, 0], [0, 1]],
    training := true }

/-- The controller obtained by constructing `GuidedBackprop(exampleModel)`. -/
def exampleGB : GuidedBackprop :=
  ⟨{ exampleModel with training := false }, ⟨none, []⟩⟩

instance : Std.Antisymm (fun (a b : ℚ) => a ≤ b) :=
  ⟨@fun _ _ h h2 => le_antisymm h h2⟩

theorem rat_list_min_spec {l : List ℚ} {a : ℚ} (h : l.min? = some a) :
    a ∈ l ∧ ∀ b ∈ l, a ≤ b :=
  (List.min?_eq_some_iff (fun x => le_refl x) (fun x y => min_choice x y)
    (fun _ _ _ => le_min_iff)).mp h

theorem rat_list_max_spec {l : List ℚ} {a : ℚ} (h : l.max? = some a) :
    a ∈ l ∧ ∀ b ∈ l, b ≤ a :=
  (List.max?_eq_some_iff (fun x => le_refl x) (fun x y => max_choice x y)
    (fun _ _ _ => max_le_iff)).mp h

theorem mem_elems {a : List (List ℚ)} {v : ℚ} :
    v ∈ elems a ↔ ∃ row ∈ a, v ∈ row := List.mem_flatten

theorem features_forward_spec (ls : List Layer) :
    ∀ (x : Tensor) (stack : List Tensor),
      features_forward ls x stack = (stack ++ relu_pushes ls x, features_out ls x) := by
  induction ls with
  | nil => intro x stack; simp [features_forward, relu_pushes, features_out]
  | cons l ls ih =>
    intro x stack
    cases l with
    | relu =>
      simp only [features_forward, relu_pushes, relu_forward_hook_function]
      rw [ih]
      simp [features_out, List.append_assoc]
    | affine w b =>
      simp only [features_forward, relu_pushes]
      rw [ih]
      simp [features_out]

theorem features_backward_spec (ls : List Layer) :
    ∀ (x seed : Tensor) (stack : List Tensor),
      ∃ g, features_backward ls x seed (stack ++ relu_pushes ls x) = (stack, .ok g) := by
  induction ls with
  | nil =>
    intro x seed stack
    exact ⟨seed, by simp [features_backward, relu_pushes]⟩
  | cons l ls ih =>
    intro x seed stack
    cases l with
    | relu =>
      obtain ⟨g, hg⟩ :=
        ih (layer_forward .relu x) seed (stack ++ [layer_forward .relu x])
      refine ⟨List.zipWith (fun m gr => m * gr)
          (mark_positive (layer_forward .relu x))
          (clamp_min0 (layer_grad_in .relu x g)), ?_⟩
      simp only [features_backward, relu_pushes]
      rw [show stack ++ (layer_forward .relu x :: relu_pushes ls (layer_forward .relu x))
            = (stack ++ [layer_forward .relu x]) ++ relu_pushes ls (layer_forward .relu x) by
          simp]
      rw [hg]
      simp [relu_backward_hook_function, List.getLast?_concat, List.dropLast_concat]
    | affine w b =>
      obtain ⟨g, hg⟩ := ih (layer_forward (.affine w b) x) seed stack
      refine ⟨layer_grad_in (.affine w b) x g, ?_⟩
      simp only [features_backward, relu_pushes]
      rw [hg]

theorem generate_gradients_of_one_hot_ok (gb : GuidedBackprop) (x : Tensor)
    (t : Int) (oh : Tensor)
    (hoh : one_hot_output (classifier_forward gb.model.classifier
        (features_out gb.model.features x)).length t = .ok oh) :
    ∃ g, generate_gradients gb x t =
      ({ gb with state := ⟨some g, gb.state.forward_relu_outputs⟩ }, .ok g) := by
  obtain ⟨g, hg⟩ := features_backward_spec gb.model.features x
    (classifier_grad_in gb.model.classifier oh
      (features_out gb.model.features x).length) gb.state.forward_relu_outputs
  refine ⟨g, ?_⟩
  simp only [generate_gradients, features_forward_spec, hoh, hg, read_gradients]

theorem generate_gradients_of_one_hot_err (gb : GuidedBackprop) (x : Tensor)
    (t : Int) (e : PyError)
    (hoh : one_hot_output (classifier_forward gb.model.classifier
        (features_out gb.model.features x)).length t = .error e) :
    generate_gradients gb x t =
      ({ gb with state := ⟨gb.state.gradients,
          gb.state.forward_relu_outputs ++ relu_pushes gb.model.features x⟩ },
       .error e) := by
  simp only [generate_gradients, features_forward_spec, hoh]

theorem mask_mul_eq : ∀ (fwd grad : List ℚ), (∀ v ∈ fwd, 0 ≤ v) →
    List.zipWith (fun m g => m * g) (mark_positive fwd) (clamp_min0 grad)
      = List.zipWith (fun a g => (if 0 < a then 1 else 0) * max g 0) fwd grad := by
  intro fwd
  induction fwd with
  | nil => intro grad h; simp [mark_positive, clamp_min0]
  | cons a as ih =>
    intro grad h
    cases grad with
    | nil => simp [mark_positive, clamp_min0]
    | cons g gs =>
      have ha : 0 ≤ a := h a (List.mem_cons_self a as)
      have has : ∀ v ∈ as, 0 ≤ v := fun v hv => h v (List.mem_cons_of_mem a hv)
      simp only [mark_positive, clamp_min0, List.map_cons, List.zipWith_cons_cons]
      rw [show (if 0 < a then (1:ℚ) else a) * max g 0
            = (if 0 < a then (1:ℚ) else 0) * max g 0 by
          by_cases hpos : 0 < a
          · simp [hpos]
          · have hz : a = 0 := le_antisymm (not_lt.mp hpos) ha
            simp [hz]]
      have hrec := ih gs has
      simp only [mark_positive, clamp_min0] at hrec
      rw [hrec]

theorem guided_zero_at_nonpos :
    ∀ (fwd grad : List ℚ) (i : Nat), fwd.getD i 0 ≤ 0 →
      (List.zipWith (fun a g => (if 0 < a then (1:ℚ) else 0) * max g 0)
        fwd grad).getD i 0 = 0 := by
  intro fwd
  induction fwd with
  | nil => intro grad i h; simp
  | cons a as ih =>
    intro grad i h
    cases grad with
    | nil => simp
    | cons g gs =>
      cases i with
      | zero =>
        simp only [List.getD_cons_zero] at h
        simp only [List.zipWith_cons_cons, List.getD_cons_zero]
        have hnp : ¬ 0 < a := not_lt.mpr h
        simp [hnp]
      | succ n =>
        simp only [List.getD_cons_succ] at h
        simp only [List.zipWith_cons_cons, List.getD_cons_succ]
        exact ih gs n h

/-- C1: at a rectifying unit's backward visit, the propagated gradient is the
element-wise product of the binary presence mask of the recorded forward
output (which, being a ReLU output, is non-negative) with the incoming
gradient clamped to non-negative values, and it is exactly zero at every
position where the recorded forward output was ≤ 0, whatever the incoming
gradient's sign. -/
theorem claim_c1_guided_backprop_rule (stack : List Tensor) (fwd grad_in : Tensor)
    (hnn : ∀ v ∈ fwd, 0 ≤ v) :
    relu_backward_hook_function (stack ++ [fwd]) grad_in
      = .ok (List.zipWith (fun a g => (if 0 < a then (1:ℚ) else 0) * max g 0)
              fwd grad_in, stack) ∧
    ∀ i, fwd.getD i 0 ≤ 0 →
      (List.zipWith (fun a g => (if 0 < a then (1:ℚ) else 0) * max g 0)
        fwd grad_in).getD i 0 = 0 := by
  constructor
  · simp only [relu_backward_hook_function, List.getLast?_concat,
      List.dropLast_concat]
    rw [mask_mul_eq fwd grad_in hnn]
  · intro i hi
    exact guided_zero_at_nonpos fwd grad_in i hi

/-- Witness for C1 at the recorded forward output `[2, 0]` and incoming
gradient `[-3, 5]`: the propagated gradient is `[0, 0]`. -/
theorem claim_c1_guided_backprop_rule_witness :
    relu_backward_hook_function [[2, 0]] [-3, 5] = .ok ([0, 0], []) := by
  have h := (claim_c1_guided_backprop_rule [] [2, 0] [-3, 5] (by decide)).1
  rw [List.nil_append] at h
  rw [h]
  norm_num [List.zipWith_cons_cons, max_def]

/-- C2: a complete (successful) `generate` call starting from an empty
activation-recorder stack returns with the stack empty again: every forward
push was consumed by exactly one LIFO pop. -/
theorem claim_c2_stack_balance (gb : GuidedBackprop) (nchan : Nat) (x : Tensor)
    (t : Int) (h0 : gb.state.forward_relu_outputs = [])
    (hok : ((GuidedBackprop.generate gb nchan x t).2).isOk = true) :
    ((GuidedBackprop.generate gb nchan x t).1).state.forward_relu_outputs = [] := by
  cases hoh : one_hot_output (classifier_forward gb.model.classifier
      (features_out gb.model.features x)).length t with
  | error e =>
    have herr := generate_gradients_of_one_hot_err gb x t e hoh
    simp only [GuidedBackprop.generate, herr, Except.isOk, Except.toBool] at hok
    exact Bool.noConfusion hok
  | ok oh =>
    obtain ⟨g, hgen⟩ := generate_gradients_of_one_hot_ok gb x t oh hoh
    simp only [GuidedBackprop.generate, hgen]
    exact h0

/-- Witness for C2: a full run on the two-layer example model leaves the
recorder stack empty. -/
theorem claim_c2_stack_balance_witness :
    ((GuidedBackprop.generate exampleGB 1 [1, -1] 1).1).state.forward_relu_outputs
      = [] :=
  claim_c2_stack_balance exampleGB 1 [1, -1] 1 rfl rfl

/-- C3 (the code evaluated at the failing call): the aggregator loop passes
three positional arguments to `GuidedBackprop.generate`, which declares two
besides `self`, so the very first iteration of
`GradientVisualization.generate` raises `TypeError`; no merged mapping — and
in particular none containing `GuidedBackprop`'s pairs — is ever produced. -/
theorem claim_c3_aggregator_type_error (gb : GuidedBackprop) (nchan : Nat)
    (siblings : List Technique) (orig_image input_image : Tensor)
    (target : Int) :
    GradientVisualization.generate gb nchan siblings orig_image input_image target
      = .error .typeError := by
  have hne : (3 : Nat) ≠ 2 := by decide
  simp only [GradientVisualization.generate, aggregate, call_technique,
    guidedbackprop_technique, if_neg hne]

theorem one_hot_output_err (n : Nat) (t : Int)
    (h : (n : Int) ≤ t ∨ t < -(n : Int)) :
    one_hot_output n t = .error .indexError := by
  unfold one_hot_output set_index
  have hlen : (((zeros n).length : Int)) = (n : Int) := by simp [zeros]
  rw [hlen]
  have h1 : ¬(0 ≤ t ∧ t < (n : Int)) := by omega
  have h2 : ¬(-(n : Int) ≤ t ∧ t < 0) := by omega
  rw [if_neg h1, if_neg h2]

/-- C4 (amended): for `target_class ≥ num_classes` or
`target_class < -num_classes` the call fails with `IndexError` and produces no
output bundle; a negative `target_class` within `[-num_classes, -1]` is NOT an
error — Python negative indexing wraps it around. -/
theorem claim_c4_amended_out_of_range (gb : GuidedBackprop) (nchan : Nat)
    (x : Tensor) (t : Int)
    (h : (gb.model.num_classes : Int) ≤ t ∨ t < -(gb.model.num_classes : Int)) :
    (GuidedBackprop.generate gb nchan x t).2 = .error .indexError := by
  have hlen : (classifier_forward gb.model.classifier
      (features_out gb.model.features x)).length = gb.model.num_classes := by
    simp [classifier_forward, Model.num_classes]
  have hoh : one_hot_output (classifier_forward gb.model.classifier
      (features_out gb.model.features x)).length t = .error .indexError := by
    rw [hlen]
    exact one_hot_output_err _ t h
  have herr := generate_gradients_of_one_hot_err gb x t _ hoh
  simp only [GuidedBackprop.generate, herr]

/-- Witness for the amended C4: `target_class = 5` on the two-class example
model fails with `IndexError`. -/
theorem claim_c4_amended_out_of_range_witness :
    (GuidedBackprop.generate exampleGB 1 [1, -1] 5).2 = .error .indexError :=
  claim_c4_amended_out_of_range exampleGB 1 [1, -1] 5 (by decide)

/-- Counterexample to C4 as stated: `target_class = -1` is outside `[0, 2)`
for the two-class example model, yet `generate` succeeds with a full output
bundle (Python negative indexing wraps `-1` to index `1`). -/
theorem claim_c4_counterexample :
    exampleModel.num_classes = 2 ∧
    (GuidedBackprop.generate exampleGB 1 [1, -1] (-1)).2
      = .ok [("color_guided_grads", [[1, 0]]),
             ("grayscale_guided_grads", [[0, 1]]),
             ("positive_saliency_maps", [[0, 0]]),
             ("negative_saliency_maps", [[0, 1]])] := by
  refine ⟨rfl, ?_⟩
  have hrep : List.replicate 2 (0:ℚ) = [0, 0] := rfl
  have hgg : generate_gradients exampleGB [1, -1] (-1)
      = (⟨exampleGB.model, ⟨some [0, -1], []⟩⟩, .ok [0, -1]) := by
    norm_num [generate_gradients, features_forward, features_backward,
      layer_forward, layer_grad_in, relu_forward_hook_function,
      relu_backward_hook_function, mark_positive, clamp_min0,
      one_hot_output, set_index, zeros, classifier_forward, classifier_grad_in,
      dot, read_gradients, exampleGB, exampleModel, max_def, hrep,
      List.zipWith_cons_cons, List.sum_cons, List.getElem?_cons_zero,
      List.getElem?_cons_succ, List.range_succ, List.set_cons_zero,
      List.set_cons_succ, Int.toNat_ofNat]
  norm_num [GuidedBackprop.generate, hgg, to_channels, normalize_gradient,
    convert_to_grayscale, get_positive_negative_saliency, elems,
    List.min?, List.max?, List.foldl_cons, List.foldl_nil, min_def, max_def,
    List.range_succ, List.zipWith_cons_cons, abs]

/-- C5 (amended): an out-of-range target class aborts `generate` before the
backward pass, so the captured-gradient slot is unchanged — but the forward
pass has already run, so the recorder stack has gained one recorded forward
output per rectifying unit; the controller state is unchanged only for
networks without rectifying units. -/
theorem claim_c5_amended_partial_state (gb : GuidedBackprop) (nchan : Nat)
    (x : Tensor) (t : Int)
    (h : (gb.model.num_classes : Int) ≤ t ∨ t < -(gb.model.num_classes : Int)) :
    (GuidedBackprop.generate gb nchan x t).2 = .error .indexError ∧
    ((GuidedBackprop.generate gb nchan x t).1).state.gradients
      = gb.state.gradients ∧
    ((GuidedBackprop.generate gb nchan x t).1).state.forward_relu_outputs
      = gb.state.forward_relu_outputs ++ relu_pushes gb.model.features x := by
  have hlen : (classifier_forward gb.model.classifier
      (features_out gb.model.features x)).length = gb.model.num_classes := by
    simp [classifier_forward, Model.num_classes]
  have hoh : one_hot_output (classifier_forward gb.model.classifier
      (features_out gb.model.features x)).length t = .error .indexError := by
    rw [hlen]
    exact one_hot_output_err _ t h
  have herr := generate_gradients_of_one_hot_err gb x t _ hoh
  refine ⟨?_, ?_, ?_⟩ <;> simp only [GuidedBackprop.generate, herr]

/-- Witness for the amended C5 on the example model. -/
theorem claim_c5_amended_partial_state_witness :
    (GuidedBackprop.generate exampleGB 1 [1, -1] 5).2 = .error .indexError ∧
    ((GuidedBackprop.generate exampleGB 1 [1, -1] 5).1).state.gradients = none ∧
    ((GuidedBackprop.generate exampleGB 1 [1, -1] 5).1).state.forward_relu_outputs
      = [] ++ relu_pushes exampleGB.model.features [1, -1] :=
  claim_c5_amended_partial_state exampleGB 1 [1, -1] 5 (by decide)

/-- Counterexample to C5 as stated: on the example model (which has one
rectifying unit) the failed call `generate(image, 5)` does NOT leave the
controller state unchanged — the recorder stack goes from `[]` to holding the
recorded ReLU output `[0, 1]`. -/
theorem claim_c5_counterexample :
    exampleGB.state.forward_relu_outputs = [] ∧
    (GuidedBackprop.generate exampleGB 1 [1, -1] 5).2 = .error .indexError ∧
    ((GuidedBackprop.generate exampleGB 1 [1, -1] 5).1).state.forward_relu_outputs
      = [[0, 1]] := by
  refine ⟨rfl, rfl, ?_⟩
  norm_num [GuidedBackprop.generate, generate_gradients, features_forward,
    features_backward, layer_forward, layer_grad_in, relu_forward_hook_function,
    relu_backward_hook_function, mark_positive, clamp_min0,
    one_hot_output, set_index, zeros, classifier_forward, classifier_grad_in,
    dot, read_gradients, exampleGB, exampleModel, max_def,
    List.zipWith_cons_cons, List.sum_cons, List.getElem?_cons_zero,
    List.getElem?_cons_succ, List.set_cons_zero, List.set_cons_succ]

/-- C6: a rectifying unit's backward observer invoked while the recorder is
empty aborts with the empty-stack error (Python: `IndexError` raised by
`self.forward_relu_outputs[-1]`) and never returns a (zero or any other)
gradient. -/
theorem claim_c6_empty_stack_error (grad_in : Tensor) :
    relu_backward_hook_function [] grad_in = .error .indexError ∧
    ∀ r, relu_backward_hook_function [] grad_in ≠ .ok r := by
  refine ⟨rfl, ?_⟩
  intro r h
  rw [show relu_backward_hook_function [] grad_in = .error .indexError from rfl] at h
  exact Except.noConfusion h

/-- C7: reading the captured gradient tensor when the first-layer observer
never fired (the slot still holds `None`) fails with the no-gradient-captured
error (Python: `AttributeError` on `None.data`) and never returns a value. -/
theorem claim_c7_no_gradient_captured :
    read_gradients none = .error .attributeError ∧
    ∀ g, read_gradients none ≠ .ok g := by
  refine ⟨rfl, ?_⟩
  intro g h
  rw [show read_gradients none = .error .attributeError from rfl] at h
  exact Except.noConfusion h

/-- C10: constructing the controller switches the borrowed model into
evaluation mode (`self.model.eval()` in `__init__`), and `generate` never
modifies the model, so it remains in evaluation mode across all subsequent
`generate` calls. -/
theorem claim_c10_eval_mode (m : Model) (gb : GuidedBackprop)
    (h : GuidedBackprop.init m = .ok gb) :
    gb.model.training = false ∧
    ∀ (nchan : Nat) (x : Tensor) (t : Int),
      ((GuidedBackprop.generate gb nchan x t).1).model = gb.model := by
  constructor
  · unfold GuidedBackprop.init at h
    cases hm : m.features with
    | nil =>
      rw [hm] at h
      exact Except.noConfusion h
    | cons l ls =>
      rw [hm] at h
      cases h
      rfl
  · intro nchan x t
    cases hoh : one_hot_output (classifier_forward gb.model.classifier
        (features_out gb.model.features x)).length t with
    | error e =>
      have herr := generate_gradients_of_one_hot_err gb x t e hoh
      simp only [GuidedBackprop.generate, herr]
    | ok oh =>
      obtain ⟨g, hgen⟩ := generate_gradients_of_one_hot_ok gb x t oh hoh
      simp only [GuidedBackprop.generate, hgen]

/-- Witness for C10: constructing the controller on the example model (whose
`training` flag is initially `true`) yields a controller in evaluation mode,
and a `generate` call leaves the model untouched. -/
theorem claim_c10_eval_mode_witness :
    exampleGB.model.training = false ∧
    ((GuidedBackprop.generate exampleGB 1 [1, -1] 1).1).model = exampleGB.model := by
  have h := claim_c10_eval_mode exampleModel exampleGB rfl
  exact ⟨h.1, h.2 1 [1, -1] 1⟩

theorem normalize_gradient_spec (a : List (List ℚ)) :
    (∀ row ∈ normalize_gradient a, ∀ v ∈ row, 0 ≤ v ∧ v ≤ 1) ∧
    ((∀ v ∈ elems a, ∀ w ∈ elems a, v = w) →
      ∀ row ∈ normalize_gradient a, ∀ v ∈ row, v = 0) ∧
    ((∃ v ∈ elems a, ∃ w ∈ elems a, v ≠ w) →
      (∃ row ∈ normalize_gradient a, (0:ℚ) ∈ row) ∧
      (∃ row ∈ normalize_gradient a, (1:ℚ) ∈ row)) := by
  cases hmin : (elems a).min? with
  | none =>
    have hnil : elems a = [] := List.min?_eq_none_iff.mp hmin
    have hmax : (elems a).max? = none := by rw [hnil]; rfl
    refine ⟨?_, ?_, ?_⟩
    · intro row hrow v hv
      simp only [normalize_gradient, hmin, hmax] at hrow
      exact absurd (mem_elems.mpr ⟨row, hrow, hv⟩) (by simp [hnil])
    · intro _ row hrow v hv
      simp only [normalize_gradient, hmin, hmax] at hrow
      exact absurd (mem_elems.mpr ⟨row, hrow, hv⟩) (by simp [hnil])
    · rintro ⟨v, hv, -⟩
      exact absurd hv (by simp [hnil])
  | some lo =>
    have hne : elems a ≠ [] := by
      intro h
      rw [h] at hmin
      exact Option.noConfusion hmin
    cases hmax : (elems a).max? with
    | none => exact absurd (List.max?_eq_none_iff.mp hmax) hne
    | some hi =>
      obtain ⟨hlo_mem, hlo_le⟩ := rat_list_min_spec hmin
      obtain ⟨hhi_mem, hle_hi⟩ := rat_list_max_spec hmax
      by_cases heq : hi = lo
      · refine ⟨?_, ?_, ?_⟩
        · intro row hrow v hv
          simp only [normalize_gradient, hmin, hmax, if_pos heq] at hrow
          obtain ⟨r0, _hr0, rfl⟩ := List.mem_map.mp hrow
          obtain ⟨w, _hw, rfl⟩ := List.mem_map.mp hv
          norm_num
        · intro _ row hrow v hv
          simp only [normalize_gradient, hmin, hmax, if_pos heq] at hrow
          obtain ⟨r0, _hr0, rfl⟩ := List.mem_map.mp hrow
          obtain ⟨w, _hw, rfl⟩ := List.mem_map.mp hv
          rfl
        · rintro ⟨v, hv, w, hw, hvw⟩
          have h1 : v = lo := le_antisymm (heq ▸ hle_hi v hv) (hlo_le v hv)
          have h2 : w = lo := le_antisymm (heq ▸ hle_hi w hw) (hlo_le w hw)
          exact absurd (h1.trans h2.symm) hvw
      · have hlt : lo < hi :=
          lt_of_le_of_ne (hlo_le hi hhi_mem) (fun h => heq h.symm)
        have hd : 0 < hi - lo := sub_pos.mpr hlt
        refine ⟨?_, ?_, ?_⟩
        · intro row hrow v hv
          simp only [normalize_gradient, hmin, hmax, if_neg heq] at hrow
          obtain ⟨r0, hr0, rfl⟩ := List.mem_map.mp hrow
          obtain ⟨w, hw, rfl⟩ := List.mem_map.mp hv
          have hwm : w ∈ elems a := mem_elems.mpr ⟨r0, hr0, hw⟩
          have h1 : lo ≤ w := hlo_le w hwm
          have h2 : w ≤ hi := hle_hi w hwm
          constructor
          · exact div_nonneg (by linarith) (le_of_lt hd)
          · rw [div_le_one hd]
            linarith
        · intro hconst
          exact absurd (hconst hi hhi_mem lo hlo_mem) heq
        · intro _
          constructor
          · obtain ⟨r0, hr0, hlor0⟩ := mem_elems.mp hlo_mem
            refine ⟨r0.map (fun v => (v - lo) / (hi - lo)), ?_, ?_⟩
            · simp only [normalize_gradient, hmin, hmax, if_neg heq]
              exact List.mem_map_of_mem _ hr0
            · have hz : (lo - lo) / (hi - lo) = 0 := by rw [sub_self, zero_div]
              rw [← hz]
              exact List.mem_map_of_mem _ hlor0
          · obtain ⟨r0, hr0, hhir0⟩ := mem_elems.mp hhi_mem
            refine ⟨r0.map (fun v => (v - lo) / (hi - lo)), ?_, ?_⟩
            · simp only [normalize_gradient, hmin, hmax, if_neg heq]
              exact List.mem_map_of_mem _ hr0
            · have ho : (hi - lo) / (hi - lo) = 1 := div_self (ne_of_gt hd)
              rw [← ho]
              exact List.mem_map_of_mem _ hhir0

/-- C8 (amended): a successful `generate` returns a mapping with exactly the
four keys `color_guided_grads`, `grayscale_guided_grads`,
`positive_saliency_maps`, `negative_saliency_maps`, whose values are the
normalizations of, respectively, the channelled raw gradient, its grayscale
conversion, and the positive and negative saliency maps; every value of every
array lies in `[0, 1]`; and for each of the four arrays: if its own
pre-normalization array is constant (or empty) the normalized array is
entirely zeros, and if its pre-normalization array has two distinct entries
the normalized array contains at least one 0 and at least one 1.  (The
degeneracy is per derived array, not a property of the raw gradient alone.) -/
theorem claim_c8_amended_output_bundle (gb : GuidedBackprop) (nchan : Nat)
    (x : Tensor) (t : Int) (bundle : List (String × List (List ℚ)))
    (hok : (GuidedBackprop.generate gb nchan x t).2 = .ok bundle) :
    ∃ raw, (generate_gradients gb x t).2 = .ok raw ∧
      bundle.map Prod.fst = ["color_guided_grads", "grayscale_guided_grads",
        "positive_saliency_maps", "negative_saliency_maps"] ∧
      bundle.map Prod.snd =
        [to_channels nchan raw,
         [convert_to_grayscale (to_channels nchan raw)],
         (get_positive_negative_saliency (to_channels nchan raw)).1,
         (get_positive_negative_saliency (to_channels nchan raw)).2].map
          normalize_gradient ∧
      ∀ pre ∈ [to_channels nchan raw,
               [convert_to_grayscale (to_channels nchan raw)],
               (get_positive_negative_saliency (to_channels nchan raw)).1,
               (get_positive_negative_saliency (to_channels nchan raw)).2],
        (∀ row ∈ normalize_gradient pre, ∀ v ∈ row, 0 ≤ v ∧ v ≤ 1) ∧
        ((∀ v ∈ elems pre, ∀ w ∈ elems pre, v = w) →
          ∀ row ∈ normalize_gradient pre, ∀ v ∈ row, v = 0) ∧
        ((∃ v ∈ elems pre, ∃ w ∈ elems pre, v ≠ w) →
          (∃ row ∈ normalize_gradient pre, (0:ℚ) ∈ row) ∧
          (∃ row ∈ normalize_gradient pre, (1:ℚ) ∈ row)) := by
  cases hoh : one_hot_output (classifier_forward gb.model.classifier
      (features_out gb.model.features x)).length t with
  | error e =>
    have herr := generate_gradients_of_one_hot_err gb x t e hoh
    simp only [GuidedBackprop.generate, herr] at hok
    exact Except.noConfusion hok
  | ok oh =>
    obtain ⟨g, hgen⟩ := generate_gradients_of_one_hot_ok gb x t oh hoh
    simp only [GuidedBackprop.generate, hgen] at hok
    injection hok with hb
    subst hb
    refine ⟨g, by rw [hgen], rfl, rfl, ?_⟩
    intro pre hpre
    simp only [List.mem_cons, List.not_mem_nil, or_false] at hpre
    rcases hpre with rfl | rfl | rfl | rfl
    · exact normalize_gradient_spec _
    · exact normalize_gradient_spec _
    · exact normalize_gradient_spec _
    · exact normalize_gradient_spec _

/-- Witness for the amended C8: the bundle produced by the example run has
the four keys in order, each array is the normalization of its own
pre-normalization array, all values lie in `[0, 1]`, each array is all-zero
when its pre-normalization array is constant and attains 0 and 1 when it is
not. -/
theorem claim_c8_amended_output_bundle_witness :
    ∃ raw, (generate_gradients exampleGB [1, -1] 1).2 = .ok raw ∧
      ([("color_guided_grads", [[(1:ℚ), 0]]),
        ("grayscale_guided_grads", [[0, 1]]),
        ("positive_saliency_maps", [[0, 0]]),
        ("negative_saliency_maps", [[0, 1]])].map Prod.fst
          = ["color_guided_grads", "grayscale_guided_grads",
             "positive_saliency_maps", "negative_saliency_maps"]) ∧
      ([("color_guided_grads", [[(1:ℚ), 0]]),
        ("grayscale_guided_grads", [[0, 1]]),
        ("positive_saliency_maps", [[0, 0]]),
        ("negative_saliency_maps", [[0, 1]])].map Prod.snd
          = [to_channels 1 raw,
             [convert_to_grayscale (to_channels 1 raw)],
             (get_positive_negative_saliency (to_channels 1 raw)).1,
             (get_positive_negative_saliency (to_channels 1 raw)).2].map
              normalize_gradient) ∧
      ∀ pre ∈ [to_channels 1 raw,
               [convert_to_grayscale (to_channels 1 raw)],
               (get_positive_negative_saliency (to_channels 1 raw)).1,
               (get_positive_negative_saliency (to_channels 1 raw)).2],
        (∀ row ∈ normalize_gradient pre, ∀ v ∈ row, 0 ≤ v ∧ v ≤ 1) ∧
        ((∀ v ∈ elems pre, ∀ w ∈ elems pre, v = w) →
          ∀ row ∈ normalize_gradient pre, ∀ v ∈ row, v = 0) ∧
        ((∃ v ∈ elems pre, ∃ w ∈ elems pre, v ≠ w) →
          (∃ row ∈ normalize_gradient pre, (0:ℚ) ∈ row) ∧
          (∃ row ∈ normalize_gradient pre, (1:ℚ) ∈ row)) := by
  have hrep : List.replicate 2 (0:ℚ) = [0, 0] := rfl
  have hgg : generate_gradients exampleGB [1, -1] 1
      = (⟨exampleGB.model, ⟨some [0, -1], []⟩⟩, .ok [0, -1]) := by
    norm_num [generate_gradients, features_forward, features_backward,
      layer_forward, layer_grad_in, relu_forward_hook_function,
      relu_backward_hook_function, mark_positive, clamp_min0,
      one_hot_output, set_index, zeros, classifier_forward, classifier_grad_in,
      dot, read_gradients, exampleGB, exampleModel, max_def, hrep,
      List.zipWith_cons_cons, List.sum_cons, List.getElem?_cons_zero,
      List.getElem?_cons_succ, List.range_succ, List.set_cons_zero,
      List.set_cons_succ, Int.toNat_ofNat]
  have hok : (GuidedBackprop.generate exampleGB 1 [1, -1] 1).2
      = .ok [("color_guided_grads", [[(1:ℚ), 0]]),
             ("grayscale_guided_grads", [[0, 1]]),
             ("positive_saliency_maps", [[0, 0]]),
             ("negative_saliency_maps", [[0, 1]])] := by
    norm_num [GuidedBackprop.generate, hgg, to_channels, normalize_gradient,
      convert_to_grayscale, get_positive_negative_saliency, elems,
      List.min?, List.max?, List.foldl_cons, List.foldl_nil, min_def, max_def,
      List.range_succ, List.zipWith_cons_cons, abs]
  exact claim_c8_amended_output_bundle exampleGB 1 [1, -1] 1 _ hok

/-- Counterexample to C8 as stated: on the example run the raw gradient is
`[0, -1]` — not constant, hence not degenerate in the claim's sense — yet
`positive_saliency_maps` is `[[0, 0]]`, which contains no 1: the clause "at
least one 0 and one 1 unless the raw gradient was degenerate" fails, because
the positive saliency array can be constant (all zeros) even when the raw
gradient is not. -/
theorem claim_c8_counterexample :
    (generate_gradients exampleGB [1, -1] 1).2 = .ok [0, -1] ∧
    (0:ℚ) ≠ -1 ∧
    (GuidedBackprop.generate exampleGB 1 [1, -1] 1).2
      = .ok [("color_guided_grads", [[1, 0]]),
             ("grayscale_guided_grads", [[0, 1]]),
             ("positive_saliency_maps", [[0, 0]]),
             ("negative_saliency_maps", [[0, 1]])] ∧
    (1:ℚ) ∉ ([[0, 0]] : List (List ℚ)).flatten := by
  have hrep : List.replicate 2 (0:ℚ) = [0, 0] := rfl
  have hgg : generate_gradients exampleGB [1, -1] 1
      = (⟨exampleGB.model, ⟨some [0, -1], []⟩⟩, .ok [0, -1]) := by
    norm_num [generate_gradients, features_forward, features_backward,
      layer_forward, layer_grad_in, relu_forward_hook_function,
      relu_backward_hook_function, mark_positive, clamp_min0,
      one_hot_output, set_index, zeros, classifier_forward, classifier_grad_in,
      dot, read_gradients, exampleGB, exampleModel, max_def, hrep,
      List.zipWith_cons_cons, List.sum_cons, List.getElem?_cons_zero,
      List.getElem?_cons_succ, List.range_succ, List.set_cons_zero,
      List.set_cons_succ, Int.toNat_ofNat]
  refine ⟨by rw [hgg], by norm_num, ?_, by norm_num⟩
  norm_num [GuidedBackprop.generate, hgg, to_channels, normalize_gradient,
    convert_to_grayscale, get_positive_negative_saliency, elems,
    List.min?, List.max?, List.foldl_cons, List.foldl_nil, min_def, max_def,
    List.range_succ, List.zipWith_cons_cons, abs]

/-- C9: before normalization, the positive saliency map `max(gradient, 0)`
and the negative saliency map `max(-gradient, 0)` have disjoint supports: at
every channel/pixel position at most one of the two is nonzero. -/
theorem claim_c9_disjoint_support (g : List (List ℚ)) (i j : Nat) :
    (((get_positive_negative_saliency g).1.getD i []).getD j 0 = 0) ∨
    (((get_positive_negative_saliency g).2.getD i []).getD j 0 = 0) := by
  unfold get_positive_negative_saliency
  simp only [List.getD_eq_getElem?_getD, List.getElem?_map]
  cases hg : g[i]? with
  | none => left; rfl
  | some row =>
    simp only [Option.map_some', Option.getD_some, List.getElem?_map]
    cases hr : row[j]? with
    | none => left; rfl
    | some v =>
      simp only [Option.map_some', Option.getD_some]
      rcases le_total v 0 with hv | hv
      · left
        exact max_eq_right hv
      · right
        have : -v ≤ 0 := neg_nonpos.mpr hv
        exact max_eq_right this

end PyTorchXAI
